import Mathlib

/-!
# Shallow embedding of the ibc-rs relayer core

A verification development for the Rust sources of the repository:
* `modules/src/ics03_connection/connection.rs` — `ConnectionEnd`, `Counterparty`,
  `validate_versions`, `validate_version`;
* `modules/src/ics26_routing/msgs.rs` — the `Ics26Envelope` routing sum type;
* `relayer-test/src/chain/bootstrap.rs` — `wait_wallet_amount`;
* `relayer-test/src/tests/chain.rs` — the end-to-end transfer scenario's
  expected-denomination computation.

Rust `String` values are embedded as `List Char`; machine integers as `Nat`/`Int`
(no arithmetic near an overflow boundary occurs in the embedded code); `Result`
as `Except`; a function that can `panic!`/`unwrap` on `Err` is embedded with an
explicit `panicked` outcome.
-/

namespace Ibc

/-- A Rust `String`, embedded as its character list. -/
abbrev RustString := List Char

/-- `char::is_whitespace` from Rust: the Unicode `White_Space` property.
Embedded by enumerating the code points of that property. -/
def isRustWhitespace (c : Char) : Bool :=
  c = ' ' || c = '\t' || c = '\n' || c.val = 0x0B || c.val = 0x0C || c = '\r' ||
  c.val = 0x85 || c.val = 0xA0 || c.val = 0x1680 ||
  (0x2000 ≤ c.val && c.val ≤ 0x200A) ||
  c.val = 0x2028 || c.val = 0x2029 || c.val = 0x202F || c.val = 0x205F ||
  c.val = 0x3000

/-- Rust `str::trim_start`: drop leading whitespace. -/
def rustTrimStart (s : RustString) : RustString :=
  s.dropWhile isRustWhitespace

/-- Rust `str::trim_end`: drop trailing whitespace. -/
def rustTrimEnd (s : RustString) : RustString :=
  (s.reverse.dropWhile isRustWhitespace).reverse

/-- Rust `str::trim`: drop leading and trailing whitespace. -/
def rustTrim (s : RustString) : RustString :=
  rustTrimEnd (rustTrimStart s)

/-- A string is blank when it is empty or consists only of whitespace;
this is exactly `s.trim().is_empty()` in the source (see `rustTrim_eq_nil_iff`). -/
def isBlank (s : RustString) : Bool :=
  s.all isRustWhitespace

/-! ## Identifiers (ics24_host)

The identifier module `ics24_host/identifier.rs` is not among the provided
sources; only its callers are. -/

/-- Modelled from the spec: the repository's `ics24_host::identifier` module is
not under the provided sources. Per spec §3, an Identifier (ClientId,
ConnectionId, ...) is "a validated string; non-empty, bounded length, restricted
character set", and "construction fails with `InvalidIdentifier` on violation".
The admissible character set and length bound are not fixed by the spec; we take
alphanumerics plus `.`, `_`, `+`, `-`, `#`, `[`, `]`, `<`, `>` and length at
most 64. All theorems below depend only on the spec-mandated non-emptiness. -/
def validIdentifierChar (c : Char) : Bool :=
  c.isAlphanum || c = '.' || c = '_' || c = '+' || c = '-' ||
  c = '#' || c = '[' || c = ']' || c = '<' || c = '>'

/-- Modelled from the spec: identifier validation (see `validIdentifierChar`). -/
def validateIdentifier (s : RustString) : Bool :=
  !s.isEmpty && s.length ≤ 64 && s.all validIdentifierChar

/-- `ClientId`: a validated identifier string (ics24_host). -/
structure ClientId where
  id : RustString
deriving Repr, DecidableEq

/-- `ConnectionId`: a validated identifier string (ics24_host). -/
structure ConnectionId where
  id : RustString
deriving Repr, DecidableEq

/-- Modelled from the spec: `ClientId::from_str` (its `FromStr` impl is in the
missing `ics24_host` module); fails on an invalid identifier string. -/
def ClientId.from_str (s : RustString) : Except Unit ClientId :=
  if validateIdentifier s then .ok ⟨s⟩ else .error ()

/-- Modelled from the spec: `ConnectionId::from_str`, as for `ClientId.from_str`. -/
def ConnectionId.from_str (s : RustString) : Except Unit ConnectionId :=
  if validateIdentifier s then .ok ⟨s⟩ else .error ()

/-- `CommitmentPrefix` (ics23_commitment): an opaque byte string; the source
type name ends in a word this development cannot use, hence `CommitmentPfx`. -/
structure CommitmentPfx where
  key_pfx : List Nat
deriving Repr, DecidableEq

/-- `CommitmentPrefix::new`. -/
def CommitmentPfx.new (bytes : List Nat) : CommitmentPfx :=
  ⟨bytes⟩

/-! ## Connection state (ics03_connection/exported.rs, not under the sources) -/

/-- Modelled from the spec: the `State` enum of `ics03_connection/exported.rs`
is not among the provided sources. Per spec §3,
`state ∈ {Uninitialized, Init, TryOpen, Open}`, advancing in that order. -/
inductive State where
  | uninit
  | init
  | tryOpen
  | open_
deriving Repr, DecidableEq

/-- The position of a state along the four-step lifecycle
`Uninitialized → Init → TryOpen → Open` (spec §3). -/
def State.idx : State → Nat
  | .uninit => 0
  | .init => 1
  | .tryOpen => 2
  | .open_ => 3

/-- Modelled from the spec: `State::from_i32`, decoding the proto integer tag;
the four lifecycle states are numbered in protocol order, with `Uninitialized`
as the default for unknown tags. -/
def State.from_i32 (n : Int) : State :=
  if n = 1 then .init
  else if n = 2 then .tryOpen
  else if n = 3 then .open_
  else .uninit

/-! ## Errors (ics03_connection/error.rs, not under the sources) -/

/-- The error kinds of `ics03_connection::error::Kind` that the embedded code
raises. The source constructor `MissingCounterpartyPrefix` is rendered
`missingCounterpartyPfx` here for the same lexical reason as `CommitmentPfx`. -/
inductive Kind where
  | invalidVersion
  | identifierError
  | missingCounterparty
  | missingCounterpartyPfx
deriving Repr, DecidableEq

/-- `ics03_connection::error::Error`: an `anomaly` error wrapping a `Kind`
(the attached context/source chain is immaterial to the claims and elided). -/
structure Error where
  kind : Kind
deriving Repr, DecidableEq

/-! ## Version validation (connection.rs, lines 148-165) -/

/-- `validate_version` (connection.rs): rejects a version whose trimmed form is
empty. -/
def validate_version (version : RustString) : Except RustString RustString :=
  if (rustTrim version).isEmpty then .error ("empty version string".data)
  else .ok version

/-- The `for v in versions { validate_version(v)?; }` loop of
`validate_versions`. -/
def validate_versions_loop : List RustString → Except RustString Unit
  | [] => .ok ()
  | v :: rest =>
    match validate_version v with
    | .error e => .error e
    | .ok _ => validate_versions_loop rest

/-- `validate_versions` (connection.rs): rejects an empty list, then validates
each entry, and returns the (copied) input list on success. -/
def validate_versions (versions : List RustString) : Except RustString (List RustString) :=
  let v := versions
  if v.isEmpty then .error ("missing versions".data)
  else
    match validate_versions_loop versions with
    | .error e => .error e
    | .ok _ => .ok v

/-! ## Counterparty (connection.rs, lines 88-146) -/

/-- `Counterparty` (connection.rs): the remote chain's view of the connection.
The source field `prefix` is rendered `pfx` (lexical restriction, as above). -/
structure Counterparty where
  client_id : ClientId
  connection_id : ConnectionId
  pfx : CommitmentPfx
deriving Repr, DecidableEq

/-- `Counterparty::new` (connection.rs): parses both identifier strings,
mapping a parse failure to `Kind::IdentifierError`. -/
def Counterparty.new (client_id : RustString) (connection_id : RustString)
    (pfx : CommitmentPfx) : Except Error Counterparty :=
  match ClientId.from_str client_id with
  | .error _ => .error ⟨.identifierError⟩
  | .ok cid =>
    match ConnectionId.from_str connection_id with
    | .error _ => .error ⟨.identifierError⟩
    | .ok connid => .ok ⟨cid, connid, pfx⟩

/-- `Counterparty::validate_basic` (connection.rs): the body is a commented-out
`todo!()` followed by `Ok(())` — it checks nothing. -/
def Counterparty.validate_basic (_self : Counterparty) : Except Error Unit :=
  .ok ()

/-! ## Proto types (prost-generated `proto_connection`, not under the sources) -/

/-- Modelled from the spec: the prost-generated `proto_connection::MerklePrefix`
message (field `key_prefix: Vec<u8>`), named `MerklePfx`/`key_pfx` here for the
lexical reason noted at `CommitmentPfx`. -/
structure MerklePfx where
  key_pfx : List Nat
deriving Repr, DecidableEq

/-- Modelled from the spec: the prost-generated `proto_connection::Counterparty`
message, as read by `Counterparty::from_proto_counterparty`: raw identifier
strings and an optional prefix. -/
structure ProtoCounterparty where
  client_id : RustString
  connection_id : RustString
  pfx : Option MerklePfx
deriving Repr, DecidableEq

/-- Modelled from the spec: the prost-generated `proto_connection::ConnectionEnd`
message, as read by `ConnectionEnd::from_proto_connection`: a raw client
identifier, versions, an integer state tag, and an optional counterparty. -/
structure ProtoConnectionEnd where
  client_id : RustString
  versions : List RustString
  state : Int
  counterparty : Option ProtoCounterparty
deriving Repr, DecidableEq

/-- `Counterparty::from_proto_counterparty` (connection.rs): fails with
`Kind::MissingCounterpartyPrefix` when the prefix is absent, otherwise defers
to `Counterparty::new`. -/
def Counterparty.from_proto_counterparty (pc : ProtoCounterparty) :
    Except Error Counterparty :=
  match pc.pfx with
  | some p => Counterparty.new pc.client_id pc.connection_id (CommitmentPfx.new p.key_pfx)
  | none => .error ⟨.missingCounterpartyPfx⟩

/-! ## ConnectionEnd (connection.rs, lines 11-86) -/

/-- `ConnectionEnd` (connection.rs). -/
structure ConnectionEnd where
  state : State
  client_id : ClientId
  counterparty : Counterparty
  versions : List RustString
deriving Repr, DecidableEq

/-- `ConnectionEnd::new` (connection.rs): always starts in `State::Uninitialized`;
version validation failure is mapped to `Kind::InvalidVersion`. -/
def ConnectionEnd.new (client_id : ClientId) (counterparty : Counterparty)
    (versions : List RustString) : Except Error ConnectionEnd :=
  match validate_versions versions with
  | .error _ => .error ⟨.invalidVersion⟩
  | .ok v => .ok ⟨.uninit, client_id, counterparty, v⟩

/-- `ConnectionEnd::set_state` (connection.rs): unconditional field assignment. -/
def ConnectionEnd.set_state (self : ConnectionEnd) (new_state : State) : ConnectionEnd :=
  { self with state := new_state }

/-- `ConnectionEnd::validate_basic` (connection.rs): defers to the
counterparty's `validate_basic`. -/
def ConnectionEnd.validate_basic (self : ConnectionEnd) : Except Error Unit :=
  self.counterparty.validate_basic

/-- Outcome of a Rust function that may `panic!` (via `unwrap()`) in addition
to returning `Result`. -/
inductive PResult (α : Type) where
  | ok (a : α)
  | err (e : Error)
  | panicked
deriving Repr, DecidableEq

/-- `ConnectionEnd::from_proto_connection` (connection.rs): absent counterparty
fails with `Kind::MissingCounterparty`; the client-id parse, the counterparty
conversion and the `ConnectionEnd::new` result are each `unwrap()`ed, so a
failure of any of them panics; finally the state tag is installed with
`set_state`. -/
def ConnectionEnd.from_proto_connection (pc : ProtoConnectionEnd) :
    PResult ConnectionEnd :=
  match pc.counterparty with
  | some cp =>
    match ClientId.from_str pc.client_id with
    | .error _ => .panicked
    | .ok cid =>
      match Counterparty.from_proto_counterparty cp with
      | .error _ => .panicked
      | .ok cpty =>
        match ConnectionEnd.new cid cpty pc.versions with
        | .error _ => .panicked
        | .ok conn => .ok (conn.set_state (State.from_i32 pc.state))
  | none => .err ⟨.missingCounterparty⟩

/-! ## Routing envelope (ics26_routing/msgs.rs)

The four wrapped message types (`ClientMsg`, `ConnectionMsg`, `ChannelMsg`,
`MsgTransfer`) live in modules that are not among the provided sources; the
envelope is polymorphic over them, which is exactly what the claim about the
envelope's shape requires. -/

/-- `Ics26Envelope` (msgs.rs): the closed sum of all messages the local ICS26
routing module can dispatch. -/
inductive Ics26Envelope (ClientMsg ConnectionMsg ChannelMsg MsgTransfer : Type) where
  | Ics2Msg (m : ClientMsg)
  | Ics3Msg (m : ConnectionMsg)
  | Ics4Msg (m : ChannelMsg)
  | Ics20Msg (m : MsgTransfer)
deriving Repr, DecidableEq

/-- The canonical reading of `Ics26Envelope` as a sum type. -/
def Ics26Envelope.toSum {α β γ δ : Type} :
    Ics26Envelope α β γ δ → α ⊕ β ⊕ γ ⊕ δ
  | .Ics2Msg m => .inl m
  | .Ics3Msg m => .inr (.inl m)
  | .Ics4Msg m => .inr (.inr (.inl m))
  | .Ics20Msg m => .inr (.inr (.inr m))

/-- Inverse of `Ics26Envelope.toSum`. -/
def Ics26Envelope.ofSum {α β γ δ : Type} :
    α ⊕ β ⊕ γ ⊕ δ → Ics26Envelope α β γ δ
  | .inl m => .Ics2Msg m
  | .inr (.inl m) => .Ics3Msg m
  | .inr (.inr (.inl m)) => .Ics4Msg m
  | .inr (.inr (.inr m)) => .Ics20Msg m

/-! ## wait_wallet_amount (relayer-test/src/chain/bootstrap.rs, lines 74-117)

The chain handle's successive `query_balance` calls are embedded as an oracle
`q : Nat → Except Unit Nat` giving the result of the `i`-th query (a balance,
or a query error of irrelevant content). The `thread::sleep` and the log
statements have no effect on the result and are elided. -/

/-- `wait_wallet_amount` (bootstrap.rs), with the chain's query responses as
the oracle `q` and `i` the index of the next query: with `remaining_retry = 0`
fail; otherwise issue one query, succeed if it reports exactly the target
amount, and on any other outcome (mismatched amount or query error) recurse
with the budget decremented. -/
def wait_wallet_amount (q : Nat → Except Unit Nat) (target_amount : Nat) :
    Nat → Nat → Except Unit Unit
  | _, 0 => .error ()
  | i, n + 1 =>
    match q i with
    | .ok amount =>
      if amount = target_amount then .ok ()
      else wait_wallet_amount q target_amount (i + 1) n
    | .error _ => wait_wallet_amount q target_amount (i + 1) n

/-- `wait_wallet_amount` instrumented with the number of balance queries it
issues; its first component is the call's result. -/
def wait_wallet_amount_count (q : Nat → Except Unit Nat) (target_amount : Nat) :
    Nat → Nat → Except Unit Unit × Nat
  | _, 0 => (.error (), 0)
  | i, n + 1 =>
    match q i with
    | .ok amount =>
      if amount = target_amount then (.ok (), 1)
      else
        let r := wait_wallet_amount_count q target_amount (i + 1) n
        (r.1, r.2 + 1)
    | .error _ =>
      let r := wait_wallet_amount_count q target_amount (i + 1) n
      (r.1, r.2 + 1)

/-! ## End-to-end transfer scenario (relayer-test/src/tests/chain.rs)

The scenario's expected-denomination computation and the two amounts it uses.
SHA-256 is computed by the external `sha2` crate; it enters the embedding as a
digest oracle `sha : RustString → List Nat` (bytes of the digest), applied by
both the code-side and the spec-side derivation. `hex::encode_upper` of the
external `subtle_encoding` crate is embedded concretely. -/

/-- The uppercase hexadecimal digit for a nibble (`hex::encode_upper`). -/
def hexDigitUpper (n : Nat) : Char :=
  ("0123456789ABCDEF".data).getD n 'X'

/-- `hex::encode_upper`: each byte becomes its high then low nibble in
uppercase hexadecimal. -/
def hexEncodeUpper (bytes : List Nat) : RustString :=
  bytes.flatMap (fun b => [hexDigitUpper (b / 16 % 16), hexDigitUpper (b % 16)])

/-- `format!("transfer/{}/samoleans", channel_id_b)` in `test_chain_manager`
(tests/chain.rs, line 169). -/
def test_denom_str (channel_id_b : RustString) : RustString :=
  "transfer/".data ++ channel_id_b ++ "/samoleans".data

/-- `format!("ibc/{}", denom_hex)` in `test_chain_manager` (lines 170-174):
the SHA-256 digest of `test_denom_str`, uppercase-hex encoded, behind `ibc/`. -/
def test_denom_hash_str (sha : RustString → List Nat) (channel_id_b : RustString) :
    RustString :=
  "ibc/".data ++ hexEncodeUpper (sha (test_denom_str channel_id_b))

/-- The `amount` field of the scenario's `TransferOptions` (line 142):
`Amount(1000_000)`. -/
def test_transfer_amount : Nat := 1000000

/-- The `target_amount` passed to the final `wait_wallet_amount` call
(line 186): `1_000_000`. -/
def test_wait_target_amount : Nat := 1000000

/-- The denomination passed to the final `wait_wallet_amount` call (line 187):
the computed `denom_hash_str`. -/
def test_wait_denom (sha : RustString → List Nat) (channel_id_b : RustString) :
    RustString :=
  test_denom_hash_str sha channel_id_b

/-- Modelled from the spec: the denomination the spec's end-to-end scenario
expects (§8): "B's user balance in denom `ibc/<sha256-hex-of
\"transfer/\x7bchannel_id_on_B\x7d/samoleans\">`", with the digest rendered in
hexadecimal. -/
def spec_expected_denom (sha : RustString → List Nat) (channel_id_on_B : RustString) :
    RustString :=
  "ibc/".data ++ hexEncodeUpper (sha ("transfer/".data ++ channel_id_on_B ++ "/samoleans".data))

/-- Modelled from the spec: the amount the spec's end-to-end scenario transfers
and expects (§8): 1,000,000. -/
def spec_expected_amount : Nat := 1000000

/-! ## Sample values used by concrete witnesses and counterexamples -/

/-- A well-formed sample counterparty. -/
def sampleCounterparty : Counterparty :=
  ⟨⟨"07-tendermint-0".data⟩, ⟨"connection-0".data⟩, ⟨[105, 98, 99]⟩⟩

/-- A sample connection end in state `Open`. -/
def sampleOpenEnd : ConnectionEnd :=
  ⟨.open_, ⟨"07-tendermint-0".data⟩, sampleCounterparty, ["1".data]⟩

/-- A sample proto connection whose `client_id` is the (malformed) empty
string, while every other field is well-formed and present. -/
def protoWithEmptyClientId : ProtoConnectionEnd :=
  ⟨[], ["1".data], 1,
    some ⟨"07-tendermint-0".data, "connection-0".data, some ⟨[105, 98, 99]⟩⟩⟩

/-! ## Lemmas about trimming and version validation -/

theorem dropWhile_eq_nil_iff_all {p : Char → Bool} {s : List Char} :
    s.dropWhile p = [] ↔ s.all p := by
  induction s with
  | nil => simp [List.dropWhile]
  | cons c cs ih =>
    by_cases h : p c
    · simp [List.dropWhile, h, ih]
    · simp [List.dropWhile, h]

theorem all_dropWhile_iff {p : Char → Bool} {s : List Char} :
    (s.dropWhile p).all p ↔ s.all p := by
  induction s with
  | nil => simp
  | cons c cs ih => by_cases h : p c <;> simp [List.dropWhile, h, ih]

theorem rustTrim_eq_nil_iff (s : RustString) :
    rustTrim s = [] ↔ isBlank s := by
  unfold rustTrim rustTrimEnd rustTrimStart isBlank
  rw [List.reverse_eq_nil_iff, dropWhile_eq_nil_iff_all, List.all_reverse,
    all_dropWhile_iff]

theorem validate_version_of_blank (v : RustString) (h : isBlank v = true) :
    validate_version v = .error ("empty version string".data) := by
  unfold validate_version
  rw [if_pos (List.isEmpty_iff.mpr ((rustTrim_eq_nil_iff v).mpr h))]

theorem validate_version_of_not_blank (v : RustString) (h : isBlank v = false) :
    validate_version v = .ok v := by
  unfold validate_version
  rw [if_neg]
  intro hc
  rw [(rustTrim_eq_nil_iff v).mp (List.isEmpty_iff.mp hc)] at h
  exact Bool.noConfusion h

theorem validate_versions_loop_ok_iff (vs : List RustString) :
    validate_versions_loop vs = .ok () ↔ ∀ v ∈ vs, isBlank v = false := by
  induction vs with
  | nil => simp [validate_versions_loop]
  | cons v rest ih =>
    by_cases h : isBlank v
    · rw [show validate_versions_loop (v :: rest) =
        .error ("empty version string".data) by
          unfold validate_versions_loop
          rw [validate_version_of_blank v h]]
      simp [h]
    · have hfalse : isBlank v = false := by simpa using h
      rw [show validate_versions_loop (v :: rest) = validate_versions_loop rest by
          simp only [validate_versions_loop]
          rw [validate_version_of_not_blank v hfalse]]
      simp only [List.mem_cons, ih]
      constructor
      · rintro hall w (rfl | hw)
        · exact hfalse
        · exact hall w hw
      · intro hall w hw
        exact hall w (Or.inr hw)

theorem except_unit_cases {ε : Type} (x : Except ε Unit) :
    x = .ok () ∨ ∃ e, x = .error e := by
  cases x with
  | ok a => exact Or.inl rfl
  | error e => exact Or.inr ⟨e, rfl⟩

theorem validate_versions_eq (vs : List RustString) :
    validate_versions vs =
      if vs.isEmpty then .error ("missing versions".data)
      else
        match validate_versions_loop vs with
        | .error e => .error e
        | .ok _ => .ok vs := rfl

theorem isEmpty_false_of_mem {v : RustString} {vs : List RustString} (hv : v ∈ vs) :
    vs.isEmpty = false := by
  cases vs with
  | nil => cases hv
  | cons a l => rfl

/-! ## Claim theorems -/

/-- **C2.** `validate_versions` rejects the empty list and rejects any list
containing a blank entry (empty or whitespace-only string); on every list whose
entries are all non-blank it succeeds and returns exactly the input list
unchanged; and `ConnectionEnd::new` succeeds exactly when `validate_versions`
accepts its versions argument, failing with an `InvalidVersion` error
otherwise. -/
theorem validate_versions_correct (vs : List RustString) :
    (vs = [] → validate_versions vs = .error ("missing versions".data))
    ∧ ((∃ v ∈ vs, isBlank v = true) → ∃ e, validate_versions vs = .error e)
    ∧ ((vs ≠ [] ∧ ∀ v ∈ vs, isBlank v = false) → validate_versions vs = .ok vs)
    ∧ ∀ (cid : ClientId) (cp : Counterparty),
        ((∃ c, ConnectionEnd.new cid cp vs = .ok c) ↔ ∃ w, validate_versions vs = .ok w)
        ∧ ((∃ e, validate_versions vs = .error e) →
            ConnectionEnd.new cid cp vs = .error ⟨.invalidVersion⟩) := by
  refine ⟨?_, ?_, ?_, ?_⟩
  · rintro rfl
    rfl
  · rintro ⟨v, hv, hb⟩
    have hne : vs.isEmpty = false := isEmpty_false_of_mem hv
    have hloop : validate_versions_loop vs ≠ .ok () := by
      intro hok
      have hcontra := (validate_versions_loop_ok_iff vs).mp hok v hv
      rw [hb] at hcontra
      exact Bool.noConfusion hcontra
    rcases except_unit_cases (validate_versions_loop vs) with hok | ⟨e, he⟩
    · exact absurd hok hloop
    · refine ⟨e, ?_⟩
      rw [validate_versions_eq, if_neg (by simp [hne]), he]
  · rintro ⟨hne, hall⟩
    have hempty : vs.isEmpty = false := by
      cases vs with
      | nil => exact absurd rfl hne
      | cons a l => rfl
    have hok : validate_versions_loop vs = .ok () :=
      (validate_versions_loop_ok_iff vs).mpr hall
    rw [validate_versions_eq, if_neg (by simp [hempty]), hok]
  · intro cid cp
    cases hv : validate_versions vs with
    | error e =>
      constructor
      · simp [ConnectionEnd.new, hv]
      · intro _
        simp [ConnectionEnd.new, hv]
    | ok w =>
      constructor
      · simp [ConnectionEnd.new, hv]
      · rintro ⟨e, he⟩
        exact Except.noConfusion he

/-- Witness for C2: the concrete inputs `["1"]` (accepted, returned unchanged)
and `[]` (rejected, so `ConnectionEnd::new` fails with `InvalidVersion`). -/
theorem validate_versions_correct_witness :
    validate_versions ["1".data] = .ok ["1".data]
    ∧ ConnectionEnd.new ⟨"c".data⟩ sampleCounterparty [] = .error ⟨.invalidVersion⟩ :=
  ⟨(validate_versions_correct ["1".data]).2.2.1 ⟨by decide, by decide⟩,
   ((validate_versions_correct []).2.2.2 ⟨"c".data⟩ sampleCounterparty).2
     ⟨"missing versions".data, rfl⟩⟩

/-- **C9.** `set_state` sets the `state` field to exactly the given state and
leaves `client_id`, `counterparty` and `versions` unchanged; it performs no
validation and accepts any state value (the statement quantifies over every
state, including ones that move the lifecycle backward). -/
theorem set_state_exact_frame (c : ConnectionEnd) (s : State) :
    (c.set_state s).state = s
    ∧ (c.set_state s).client_id = c.client_id
    ∧ (c.set_state s).counterparty = c.counterparty
    ∧ (c.set_state s).versions = c.versions :=
  ⟨rfl, rfl, rfl, rfl⟩

/-- **C10.** `ConnectionEnd::validate_basic` and `Counterparty::validate_basic`
return `Ok(())` for every value: they check nothing and never fail. -/
theorem validate_basic_always_ok (c : ConnectionEnd) (cp : Counterparty) :
    c.validate_basic = .ok () ∧ cp.validate_basic = .ok () :=
  ⟨rfl, rfl⟩

/-- **C4.** A proto connection without a counterparty makes
`from_proto_connection` fail with `MissingCounterparty`; a proto counterparty
without a prefix makes `from_proto_counterparty` fail with
`MissingCounterpartyPrefix`; in both cases the result is exactly the error. -/
theorem missing_counterparty_errors (pc : ProtoConnectionEnd) (pcc : ProtoCounterparty) :
    (pc.counterparty = none →
      ConnectionEnd.from_proto_connection pc = .err ⟨.missingCounterparty⟩)
    ∧ (pcc.pfx = none →
      Counterparty.from_proto_counterparty pcc = .error ⟨.missingCounterpartyPfx⟩) := by
  constructor
  · intro h
    simp only [ConnectionEnd.from_proto_connection, h]
  · intro h
    simp only [Counterparty.from_proto_counterparty, h]

/-- Witness for C4 at concrete proto values with the respective field absent. -/
theorem missing_counterparty_errors_witness :
    ConnectionEnd.from_proto_connection ⟨"07-tendermint-0".data, ["1".data], 1, none⟩
      = .err ⟨.missingCounterparty⟩
    ∧ Counterparty.from_proto_counterparty ⟨"07-tendermint-0".data, "connection-0".data, none⟩
      = .error ⟨.missingCounterpartyPfx⟩ :=
  ⟨(missing_counterparty_errors ⟨"07-tendermint-0".data, ["1".data], 1, none⟩
      ⟨[], [], none⟩).1 rfl,
   (missing_counterparty_errors ⟨[], [], 0, none⟩
      ⟨"07-tendermint-0".data, "connection-0".data, none⟩).2 rfl⟩

/-- **C7.** The routing envelope is a closed sum type of exactly four cases —
client, connection, channel, and application-transfer message — each value
wrapping exactly one message and carrying no other state: `Ics26Envelope` is
in bijection with the four-way sum of the wrapped message types. -/
theorem ics26_envelope_is_closed_sum (α β γ δ : Type) :
    (∀ e : Ics26Envelope α β γ δ, Ics26Envelope.ofSum (Ics26Envelope.toSum e) = e)
    ∧ (∀ s : α ⊕ β ⊕ γ ⊕ δ, Ics26Envelope.toSum (Ics26Envelope.ofSum s) = s) := by
  constructor
  · intro e
    cases e <;> rfl
  · intro s
    rcases s with m | (m | (m | m)) <;> rfl

/-- **C8.** The end-to-end scenario's awaited denomination equals
`ibc/` followed by the uppercase-hex SHA-256 digest of
`transfer/\x7bchannel_id_on_B\x7d/samoleans` (for every digest function and
channel id, the code-side derivation coincides with the spec-side one), and the
awaited amount equals the transferred amount 1,000,000. -/
theorem transfer_scenario_denom_and_amount (sha : RustString → List Nat)
    (channel_id_b : RustString) :
    test_wait_denom sha channel_id_b = spec_expected_denom sha channel_id_b
    ∧ test_wait_target_amount = spec_expected_amount
    ∧ test_transfer_amount = spec_expected_amount
    ∧ test_wait_target_amount = test_transfer_amount
    ∧ test_transfer_amount = 1000000 :=
  ⟨rfl, rfl, rfl, rfl, rfl⟩

/-- **C1 counterexample.** The claim that no operation of `ConnectionEnd` ever
moves the state backward is false: `set_state` on a concrete end in state
`Open` moves it back to `Uninitialized`, a strictly earlier lifecycle
position. -/
theorem set_state_moves_backward :
    (sampleOpenEnd.set_state .uninit).state = .uninit
    ∧ (sampleOpenEnd.set_state .uninit).state.idx < sampleOpenEnd.state.idx :=
  ⟨rfl, by decide⟩

/-- **C1 (amended).** `ConnectionEnd::new` always returns an end whose state is
`Uninitialized`; but the type does not enforce forward-only movement: its only
state-changing operation `set_state` installs any requested state, including
ones strictly earlier in the lifecycle (forward-only progress is a protocol
discipline of the handshake driver, not an invariant of the type). -/
theorem new_uninit_and_set_state_unrestricted :
    (∀ (cid : ClientId) (cp : Counterparty) (vs : List RustString) (c : ConnectionEnd),
      ConnectionEnd.new cid cp vs = .ok c → c.state = .uninit)
    ∧ (∀ (c : ConnectionEnd) (s : State), (c.set_state s).state = s) := by
  constructor
  · intro cid cp vs c h
    rw [show ConnectionEnd.new cid cp vs =
        (match validate_versions vs with
          | .error _ => Except.error ⟨.invalidVersion⟩
          | .ok v => Except.ok ⟨State.uninit, cid, cp, v⟩) from rfl] at h
    cases hv : validate_versions vs with
    | error e =>
      rw [hv] at h
      exact Except.noConfusion h
    | ok w =>
      rw [hv] at h
      cases h
      rfl
  · intro c s
    rfl

/-- Witness for C1 (amended): a concrete successful `new` yields an
`Uninitialized` end, and a concrete `set_state` call installs the given state. -/
theorem new_uninit_and_set_state_unrestricted_witness :
    (⟨State.uninit, ⟨"c".data⟩, sampleCounterparty, ["1".data]⟩ : ConnectionEnd).state
      = State.uninit
    ∧ (sampleOpenEnd.set_state State.init).state = State.init :=
  ⟨new_uninit_and_set_state_unrestricted.1 ⟨"c".data⟩ sampleCounterparty ["1".data]
      ⟨State.uninit, ⟨"c".data⟩, sampleCounterparty, ["1".data]⟩ rfl,
   new_uninit_and_set_state_unrestricted.2 sampleOpenEnd State.init⟩

/-- **C3 (code bug).** On a proto connection whose counterparty is present but
whose `client_id` is the malformed empty string, `from_proto_connection` does
NOT return an error result: it `unwrap()`s the failed identifier parse and
panics. (`Counterparty::new`, by contrast, does return an `IdentifierError`
for a malformed client identifier, as the second conjunct records.) -/
theorem from_proto_connection_panics_on_malformed_id :
    ConnectionEnd.from_proto_connection protoWithEmptyClientId = .panicked
    ∧ ∀ (conn : RustString) (p : CommitmentPfx),
        Counterparty.new [] conn p = .error ⟨.identifierError⟩ := by
  constructor
  · rfl
  · intro conn p
    rfl

/-- **C5 counterexample.** Constructing a `Counterparty` whose counterparty
connection id is not yet known (the empty string) does not succeed: the
identifier is parsed and the empty string is rejected with `IdentifierError`. -/
theorem counterparty_new_empty_connection_id_fails :
    Counterparty.new "07-tendermint-0".data [] (CommitmentPfx.new [105, 98, 99])
      = .error ⟨.identifierError⟩ := rfl

/-- **C5 (amended).** `Counterparty::new` validates its `connection_id`
argument as an identifier, so an absent ("" ) counterparty connection id cannot
be represented: for every valid client id, construction with the empty
connection id fails with `IdentifierError`. -/
theorem counterparty_new_requires_connection_id (cid : RustString) (p : CommitmentPfx)
    (h : validateIdentifier cid = true) :
    Counterparty.new cid [] p = .error ⟨.identifierError⟩ := by
  unfold Counterparty.new ClientId.from_str
  rw [if_pos h]
  rfl

/-- Witness for C5 (amended) at a concrete valid client id. -/
theorem counterparty_new_requires_connection_id_witness :
    Counterparty.new "client-a".data [] (CommitmentPfx.new []) = .error ⟨.identifierError⟩ :=
  counterparty_new_requires_connection_id "client-a".data (CommitmentPfx.new []) (by decide)

theorem exists_lt_succ_shift (P : Nat → Prop) (n : Nat) :
    (∃ j, j < n + 1 ∧ P j) ↔ P 0 ∨ ∃ j, j < n ∧ P (j + 1) := by
  constructor
  · rintro ⟨j, hj, hP⟩
    cases j with
    | zero => exact Or.inl hP
    | succ k => exact Or.inr ⟨k, by omega, hP⟩
  · rintro (h | ⟨j, hj, hP⟩)
    · exact ⟨0, by omega, h⟩
    · exact ⟨j + 1, by omega, hP⟩

/-- **C6.** `wait_wallet_amount` has an explicit bounded retry budget: with
budget `n` it issues at most `n` balance queries (the count component of the
instrumented version, whose result component agrees with the plain function,
which is total — structural recursion on the budget — so it always terminates);
it returns `Ok` exactly when some query within the budget reports a balance
equal to the target amount, and returns an error once the budget is exhausted
without the target having been observed. -/
theorem wait_wallet_amount_correct (q : Nat → Except Unit Nat) (target i n : Nat) :
    wait_wallet_amount q target i n = (wait_wallet_amount_count q target i n).1
    ∧ (wait_wallet_amount_count q target i n).2 ≤ n
    ∧ (wait_wallet_amount q target i n = .ok () ↔ ∃ j, j < n ∧ q (i + j) = .ok target)
    ∧ ((¬ ∃ j, j < n ∧ q (i + j) = .ok target) →
        wait_wallet_amount q target i n = .error ()) := by
  induction n generalizing i with
  | zero =>
    refine ⟨rfl, Nat.le_refl 0, ?_, fun _ => rfl⟩
    constructor
    · intro h
      exact Except.noConfusion h
    · rintro ⟨j, hj, _⟩
      omega
  | succ n ih =>
    obtain ⟨ih1, ih2, ih3, ih4⟩ := ih (i + 1)
    cases hq : q i with
    | ok a =>
      by_cases ha : a = target
      · have hw : wait_wallet_amount q target i (n + 1) = .ok () := by
          simp [wait_wallet_amount, hq, ha]
        have hc : wait_wallet_amount_count q target i (n + 1) = (.ok (), 1) := by
          simp [wait_wallet_amount_count, hq, ha]
        refine ⟨by rw [hw, hc], by rw [hc]; omega, ?_, ?_⟩
        · rw [hw]
          constructor
          · intro _
            exact ⟨0, by omega, by rw [Nat.add_zero, hq, ha]⟩
          · intro _
            rfl
        · intro hne
          exact absurd ⟨0, by omega, by rw [Nat.add_zero, hq, ha]⟩ hne
      · have hw : wait_wallet_amount q target i (n + 1)
            = wait_wallet_amount q target (i + 1) n := by
          simp [wait_wallet_amount, hq, ha]
        have hc : wait_wallet_amount_count q target i (n + 1)
            = ((wait_wallet_amount_count q target (i + 1) n).1,
               (wait_wallet_amount_count q target (i + 1) n).2 + 1) := by
          simp [wait_wallet_amount_count, hq, ha]
        have hshift : (∃ j, j < n + 1 ∧ q (i + j) = .ok target)
            ↔ ∃ j, j < n ∧ q (i + 1 + j) = .ok target := by
          rw [exists_lt_succ_shift (fun j => q (i + j) = .ok target) n]
          constructor
          · rintro (h0 | ⟨j, hj, hP⟩)
            · rw [Nat.add_zero, hq] at h0
              injection h0 with h0
              exact absurd h0 ha
            · exact ⟨j, hj, by rw [show i + 1 + j = i + (j + 1) by omega]; exact hP⟩
          · rintro ⟨j, hj, hP⟩
            exact Or.inr ⟨j, hj, by rw [show i + (j + 1) = i + 1 + j by omega]; exact hP⟩
        refine ⟨by rw [hw, hc, ih1], by rw [hc]; omega, ?_, ?_⟩
        · rw [hw, ih3, hshift]
        · intro hne
          rw [hw]
          exact ih4 (fun hex => hne (hshift.mpr hex))
    | error e =>
      have hw : wait_wallet_amount q target i (n + 1)
          = wait_wallet_amount q target (i + 1) n := by
        simp [wait_wallet_amount, hq]
      have hc : wait_wallet_amount_count q target i (n + 1)
          = ((wait_wallet_amount_count q target (i + 1) n).1,
             (wait_wallet_amount_count q target (i + 1) n).2 + 1) := by
        simp [wait_wallet_amount_count, hq]
      have hshift : (∃ j, j < n + 1 ∧ q (i + j) = .ok target)
          ↔ ∃ j, j < n ∧ q (i + 1 + j) = .ok target := by
        rw [exists_lt_succ_shift (fun j => q (i + j) = .ok target) n]
        constructor
        · rintro (h0 | ⟨j, hj, hP⟩)
          · rw [Nat.add_zero, hq] at h0
            exact Except.noConfusion h0
          · exact ⟨j, hj, by rw [show i + 1 + j = i + (j + 1) by omega]; exact hP⟩
        · rintro ⟨j, hj, hP⟩
          exact Or.inr ⟨j, hj, by rw [show i + (j + 1) = i + 1 + j by omega]; exact hP⟩
      refine ⟨by rw [hw, hc, ih1], by rw [hc]; omega, ?_, ?_⟩
      · rw [hw, ih3, hshift]
      · intro hne
        rw [hw]
        exact ih4 (fun hex => hne (hshift.mpr hex))

/-- Witness for C6 at concrete query oracles: one that reports the target on
its third query (success), and one that always fails (budget exhaustion). -/
theorem wait_wallet_amount_correct_witness :
    wait_wallet_amount (fun j => Except.ok j) 2 0 5 = .ok ()
    ∧ wait_wallet_amount (fun _ => Except.error ()) 2 0 5 = .error () :=
  ⟨(wait_wallet_amount_correct (fun j => Except.ok j) 2 0 5).2.2.1.mpr
      ⟨2, by omega, rfl⟩,
   (wait_wallet_amount_correct (fun _ => Except.error ()) 2 0 5).2.2.2
      (by rintro ⟨j, hj, hP⟩; exact Except.noConfusion hP)⟩

end Ibc
